import Mathlib

/-!
Verification of the DIMOV-FINANCE partner financial allocation engine.

The source of truth is the TypeScript function calculateFinancials (and the
record-creation handlers addExpense / addPayment / addDividend) of the
application. Monetary amounts are embedded as rationals (ideal arithmetic);
JavaScript objects used as string-keyed accumulator maps are embedded as
total functions PartnerId → ℚ defaulting to 0, which matches the source's
pervasive use of the pattern (m[k] || 0).
-/

abbrev PartnerId := String

structure Partner where
  id : PartnerId
  name : String
  role : String
deriving Repr, DecidableEq

inductive ProjectType where
  | construction
  | electrical
deriving Repr, DecidableEq

structure Project where
  id : String
  name : String
  description : String
  type : ProjectType
  status : String
  createdAt : String
deriving Repr, DecidableEq

structure Distribution where
  partnerId : PartnerId
  amount : ℚ
deriving Repr, DecidableEq

structure Payment where
  id : String
  projectId : String
  date : String
  description : String
  totalAmount : ℚ
  distributions : List Distribution
deriving Repr, DecidableEq

structure Expense where
  id : String
  date : String
  description : String
  amount : ℚ
  category : String
  distributions : List Distribution
deriving Repr, DecidableEq

structure DividendPayout where
  id : String
  partnerId : PartnerId
  date : String
  grossAmount : ℚ
  taxAmount : ℚ
  netReceived : ℚ
deriving Repr, DecidableEq

structure AppState where
  projects : List Project
  payments : List Payment
  expenses : List Expense
  dividends : List DividendPayout
deriving Repr, DecidableEq

structure FinancialSummary where
  totalRevenue : ℚ
  totalExpenses : ℚ
  taxableProfit : ℚ
  corporateTax : ℚ
  netProfit : ℚ
deriving Repr, DecidableEq

structure PartnerFinancials where
  partnerId : PartnerId
  name : String
  revenue : ℚ
  expenseShare : ℚ
  taxableBase : ℚ
  corporateTaxShare : ℚ
  netProfitShare : ℚ
  dividendsTakenGross : ℚ
  dividendTaxPaid : ℚ
  balance : ℚ
deriving Repr, DecidableEq

def p1 : Partner := { id := "p1", name := "Пламен Димов", role := "Управител" }

def p2 : Partner := { id := "p2", name := "Светлозар Димов", role := "Конструктор" }

def p3 : Partner := { id := "p3", name := "Димо Димов", role := "Електро проектант" }

/-- The fixed roster from constants.ts. -/
def PARTNERS : List Partner := [p1, p2, p3]

/-- 10 percent corporate tax, from constants.ts. -/
def TAX_RATE : ℚ := 1 / 10

/-- 5 percent dividend tax, from constants.ts. -/
def DIVIDEND_TAX_RATE : ℚ := 1 / 20

/-- Revenue a single payment attributes to the partner id: the amount of the
first distribution whose partnerId matches (the source uses find), 0 when none
matches. -/
def Payment.revenueFor (p : Payment) (pid : PartnerId) : ℚ :=
  match p.distributions.find? (fun d => d.partnerId == pid) with
  | some d => d.amount
  | none => 0

/-- One step of the per-partner expense accumulation of calculateFinancials:
an expense with no distributions is split equally over the roster, otherwise
each distribution amount is added at its own partnerId key. -/
def expenseMapStep (roster : List Partner) (m : PartnerId → ℚ) (exp : Expense) :
    PartnerId → ℚ :=
  if exp.distributions.isEmpty then
    let share := exp.amount / (roster.length : ℚ)
    roster.foldl (fun acc p => Function.update acc p.id (acc p.id + share)) m
  else
    exp.distributions.foldl
      (fun acc d => Function.update acc d.partnerId (acc d.partnerId + d.amount)) m

/-- The partnerExpenseMap object of calculateFinancials, built by iterating
over the expenses in ledger order. -/
def partnerExpenseMap (roster : List Partner) (state : AppState) : PartnerId → ℚ :=
  state.expenses.foldl (expenseMapStep roster) (fun _ => 0)

/-- The PartnerFinancials record calculateFinancials builds for one roster
partner. -/
def partnerStatFor (roster : List Partner) (taxRate : ℚ) (state : AppState)
    (partner : Partner) : PartnerFinancials :=
  let revenue := state.payments.foldl (fun sum p => sum + p.revenueFor partner.id) 0
  let expenseShare := partnerExpenseMap roster state partner.id
  let taxableBase := revenue - expenseShare
  let corporateTaxShare := if taxableBase > 0 then taxableBase * taxRate else 0
  let netProfitShare := taxableBase - corporateTaxShare
  let dividendsTaken :=
    (state.dividends.filter (fun d => d.partnerId == partner.id)).foldl
      (fun sum d => sum + d.grossAmount) 0
  let dividendTaxPaid :=
    (state.dividends.filter (fun d => d.partnerId == partner.id)).foldl
      (fun sum d => sum + d.taxAmount) 0
  let balance := netProfitShare - dividendsTaken
  { partnerId := partner.id
    name := partner.name
    revenue := revenue
    expenseShare := expenseShare
    taxableBase := taxableBase
    corporateTaxShare := corporateTaxShare
    netProfitShare := netProfitShare
    dividendsTakenGross := dividendsTaken
    dividendTaxPaid := dividendTaxPaid
    balance := balance }

structure FinancialsResult where
  summary : FinancialSummary
  partnerStats : List PartnerFinancials
deriving Repr, DecidableEq

/-- calculateFinancials, generalized over the roster and the corporate tax
rate the source closes over (constants PARTNERS and TAX_RATE). -/
def calculateFinancialsWith (roster : List Partner) (taxRate : ℚ)
    (state : AppState) : FinancialsResult :=
  let totalRevenue := state.payments.foldl (fun sum p => sum + p.totalAmount) 0
  let totalExpenses := state.expenses.foldl (fun sum e => sum + e.amount) 0
  let taxableProfit := max 0 (totalRevenue - totalExpenses)
  let corporateTax := taxableProfit * taxRate
  let netProfit := totalRevenue - totalExpenses - corporateTax
  let partnerStats := roster.map (partnerStatFor roster taxRate state)
  { summary :=
      { totalRevenue := totalRevenue
        totalExpenses := totalExpenses
        taxableProfit := taxableProfit
        corporateTax := corporateTax
        netProfit := netProfit }
    partnerStats := partnerStats }

/-- calculateFinancials exactly as in the source: the fixed roster and rate. -/
def calculateFinancials (state : AppState) : FinancialsResult :=
  calculateFinancialsWith PARTNERS TAX_RATE state

/-- The addExpense handler: appends a new expense record to the ledger (the
source generates the id from the clock; here it is a parameter). -/
def addExpense (state : AppState) (id desc : String) (amount : ℚ)
    (date category : String) (distributions : List Distribution) : AppState :=
  { state with
      expenses := state.expenses ++
        [{ id := id, date := date, description := desc, amount := amount,
           category := category, distributions := distributions }] }

/-- The addPayment handler: appends a new payment record to the ledger. -/
def addPayment (state : AppState) (id projectId : String) (total : ℚ)
    (date desc : String) (dists : List Distribution) : AppState :=
  { state with
      payments := state.payments ++
        [{ id := id, projectId := projectId, date := date, description := desc,
           totalAmount := total, distributions := dists }] }

/-- The dividend record the addDividend handler creates and appends: it stamps
taxAmount and netReceived from the fixed dividend rate. -/
def addDividend (id : String) (partnerId : PartnerId) (grossAmount : ℚ)
    (date : String) : DividendPayout :=
  let tax := grossAmount * DIVIDEND_TAX_RATE
  let net := grossAmount - tax
  { id := id, partnerId := partnerId, date := date, grossAmount := grossAmount,
    taxAmount := tax, netReceived := net }

def emptyState : AppState :=
  { projects := [], payments := [], expenses := [], dividends := [] }

inductive ConfigError where
  | emptyRoster
deriving Repr, DecidableEq

/-- The engine contract as the spec words it in sections 4.2 and 7: the same
computation as the source, except that an empty roster must fail fast with a
configuration error distinct from a normal result. Stated only to be compared
with calculateFinancialsWith, which performs no such check. -/
def computeFinancialsSpec (roster : List Partner) (taxRate : ℚ)
    (state : AppState) : Except ConfigError FinancialsResult :=
  if roster.isEmpty then
    Except.error ConfigError.emptyRoster
  else
    Except.ok (calculateFinancialsWith roster taxRate state)

/-- A ledger holding a single expense of 90 with no distributions. -/
def oneExpenseState : AppState :=
  { emptyState with
      expenses := [{ id := "e1", date := "2024-01-01", description := "наем",
                     amount := 90, category := "Наем", distributions := [] }] }

/-- A ledger where partner p1 earns a net profit share of exactly 1000 (a
revenue of 10000/9 taxed at 10 percent) and has withdrawn a gross dividend of
1200. -/
def drawDownState : AppState :=
  { emptyState with
      payments := [{ id := "pay1", projectId := "proj1", date := "2024-02-01",
                     description := "хонорар", totalAmount := 10000 / 9,
                     distributions := [{ partnerId := "p1",
                                         amount := 10000 / 9 }] }],
      dividends := [addDividend "d1" "p1" 1200 "2024-03-01"] }

/-- Statement helper: the entries of a distributions list that name a roster
partner id, i.e. the complement of the alien entries. -/
def rosterEntries (roster : List Partner) (ds : List Distribution) :
    List Distribution :=
  ds.filter (fun d => decide (d.partnerId ∈ roster.map Partner.id))


/-! Helper lemmas about the folds the engine uses. -/

lemma foldl_add_eq {α : Type} (f : α → ℚ) (l : List α) (a : ℚ) :
    l.foldl (fun s x => s + f x) a = a + (l.map f).sum := by
  induction l generalizing a with
  | nil => simp
  | cons x xs ih => simp [ih, add_assoc]

lemma foldl_update_share (ids : List PartnerId) (share : ℚ)
    (m : PartnerId → ℚ) (pid : PartnerId) :
    ids.foldl (fun acc i => Function.update acc i (acc i + share)) m pid
      = m pid + share * (ids.count pid : ℚ) := by
  induction ids generalizing m with
  | nil => simp
  | cons i rest ih =>
    simp only [List.foldl_cons, ih]
    by_cases h : pid = i
    · subst h
      rw [List.count_cons_self, Function.update_same]
      push_cast
      ring
    · rw [List.count_cons_of_ne h, Function.update_noteq h]

lemma foldl_update_dists (ds : List Distribution) (m : PartnerId → ℚ)
    (pid : PartnerId) :
    ds.foldl
        (fun acc d => Function.update acc d.partnerId (acc d.partnerId + d.amount))
        m pid
      = m pid
        + ((ds.filter (fun d => d.partnerId == pid)).map Distribution.amount).sum := by
  induction ds generalizing m with
  | nil => simp
  | cons d rest ih =>
    simp only [List.foldl_cons, ih, List.filter_cons]
    by_cases h : d.partnerId = pid
    · subst h
      simp [Function.update_same]
      ring
    · have hb : (d.partnerId == pid) = false := by
        simp [h]
      rw [Function.update_noteq (Ne.symm h), hb]
      simp

/-! Structural facts about the engine, all definitional. -/

lemma partnerStats_def (roster : List Partner) (rate : ℚ) (state : AppState) :
    (calculateFinancialsWith roster rate state).partnerStats
      = roster.map (partnerStatFor roster rate state) := rfl

lemma summary_totalRevenue_def (roster : List Partner) (rate : ℚ)
    (state : AppState) :
    (calculateFinancialsWith roster rate state).summary.totalRevenue
      = state.payments.foldl (fun sum p => sum + p.totalAmount) 0 := rfl

lemma summary_totalExpenses_def (roster : List Partner) (rate : ℚ)
    (state : AppState) :
    (calculateFinancialsWith roster rate state).summary.totalExpenses
      = state.expenses.foldl (fun sum e => sum + e.amount) 0 := rfl

lemma partnerStatFor_expenseShare (roster : List Partner) (rate : ℚ)
    (state : AppState) (p : Partner) :
    (partnerStatFor roster rate state p).expenseShare
      = partnerExpenseMap roster state p.id := rfl

lemma partnerStatFor_revenue (roster : List Partner) (rate : ℚ)
    (state : AppState) (p : Partner) :
    (partnerStatFor roster rate state p).revenue
      = state.payments.foldl (fun sum q => sum + q.revenueFor p.id) 0 := rfl

lemma partnerExpenseMap_append (roster : List Partner) (state : AppState)
    (e : Expense) :
    partnerExpenseMap roster { state with expenses := state.expenses ++ [e] }
      = expenseMapStep roster (partnerExpenseMap roster state) e := by
  simp [partnerExpenseMap, List.foldl_append]

lemma partnerStatFor_congr (roster₁ roster₂ : List Partner) (rate : ℚ)
    (s₁ s₂ : AppState) (p : Partner)
    (hrev : s₁.payments.foldl (fun sum q => sum + q.revenueFor p.id) 0
          = s₂.payments.foldl (fun sum q => sum + q.revenueFor p.id) 0)
    (hdiv : s₁.dividends = s₂.dividends)
    (hmap : partnerExpenseMap roster₁ s₁ p.id = partnerExpenseMap roster₂ s₂ p.id) :
    partnerStatFor roster₁ rate s₁ p = partnerStatFor roster₂ rate s₂ p := by
  simp only [partnerStatFor, hrev, hdiv, hmap]

/-- C1: the company summary clamps only the company-wide figure, never the
per-partner one: taxableProfit is the clamped max of 0 and revenue minus
expenses, corporateTax is taxableProfit times the rate, netProfit subtracts
the tax from the unclamped difference; every partner statement has an
unclamped taxableBase, a corporateTaxShare that is zero unless the base is
positive, and netProfitShare equal to base minus tax share. -/
theorem claim1_company_clamp_partner_no_clamp
    (roster : List Partner) (rate : ℚ) (state : AppState)
    (ps : PartnerFinancials)
    (hps : ps ∈ (calculateFinancialsWith roster rate state).partnerStats) :
    ((calculateFinancialsWith roster rate state).summary.taxableProfit
        = max 0 ((calculateFinancialsWith roster rate state).summary.totalRevenue
            - (calculateFinancialsWith roster rate state).summary.totalExpenses)
      ∧ (calculateFinancialsWith roster rate state).summary.corporateTax
        = (calculateFinancialsWith roster rate state).summary.taxableProfit * rate
      ∧ (calculateFinancialsWith roster rate state).summary.netProfit
        = (calculateFinancialsWith roster rate state).summary.totalRevenue
            - (calculateFinancialsWith roster rate state).summary.totalExpenses
            - (calculateFinancialsWith roster rate state).summary.corporateTax)
    ∧ ps.taxableBase = ps.revenue - ps.expenseShare
    ∧ ps.corporateTaxShare
        = (if ps.taxableBase > 0 then ps.taxableBase * rate else 0)
    ∧ ps.netProfitShare = ps.taxableBase - ps.corporateTaxShare := by
  rw [partnerStats_def] at hps
  rcases List.mem_map.mp hps with ⟨p, _hp, rfl⟩
  exact ⟨⟨rfl, rfl, rfl⟩, rfl, rfl, rfl⟩

theorem claim1_company_clamp_partner_no_clamp_witness :
    (partnerStatFor PARTNERS TAX_RATE emptyState p1
        ∈ (calculateFinancialsWith PARTNERS TAX_RATE emptyState).partnerStats)
    ∧ (((calculateFinancialsWith PARTNERS TAX_RATE emptyState).summary.taxableProfit
        = max 0 ((calculateFinancialsWith PARTNERS TAX_RATE emptyState).summary.totalRevenue
            - (calculateFinancialsWith PARTNERS TAX_RATE emptyState).summary.totalExpenses)
      ∧ (calculateFinancialsWith PARTNERS TAX_RATE emptyState).summary.corporateTax
        = (calculateFinancialsWith PARTNERS TAX_RATE emptyState).summary.taxableProfit * TAX_RATE
      ∧ (calculateFinancialsWith PARTNERS TAX_RATE emptyState).summary.netProfit
        = (calculateFinancialsWith PARTNERS TAX_RATE emptyState).summary.totalRevenue
            - (calculateFinancialsWith PARTNERS TAX_RATE emptyState).summary.totalExpenses
            - (calculateFinancialsWith PARTNERS TAX_RATE emptyState).summary.corporateTax)
    ∧ (partnerStatFor PARTNERS TAX_RATE emptyState p1).taxableBase
        = (partnerStatFor PARTNERS TAX_RATE emptyState p1).revenue
            - (partnerStatFor PARTNERS TAX_RATE emptyState p1).expenseShare
    ∧ (partnerStatFor PARTNERS TAX_RATE emptyState p1).corporateTaxShare
        = (if (partnerStatFor PARTNERS TAX_RATE emptyState p1).taxableBase > 0
            then (partnerStatFor PARTNERS TAX_RATE emptyState p1).taxableBase * TAX_RATE
            else 0)
    ∧ (partnerStatFor PARTNERS TAX_RATE emptyState p1).netProfitShare
        = (partnerStatFor PARTNERS TAX_RATE emptyState p1).taxableBase
            - (partnerStatFor PARTNERS TAX_RATE emptyState p1).corporateTaxShare) := by
  have hmem : partnerStatFor PARTNERS TAX_RATE emptyState p1
      ∈ (calculateFinancialsWith PARTNERS TAX_RATE emptyState).partnerStats := by
    rw [partnerStats_def]
    exact List.mem_map_of_mem _ (by decide)
  exact ⟨hmem,
    claim1_company_clamp_partner_no_clamp PARTNERS TAX_RATE emptyState _ hmem⟩

/-- C3: company totals come only from each record's own total field: the
summary revenue is the sum of the payments' totalAmount, the summary expenses
the sum of the expenses' amount, and rewriting every record's distributions
list in any way whatsoever leaves both totals unchanged. -/
theorem claim3_totals_use_parent_fields (roster : List Partner) (rate : ℚ)
    (state : AppState) (f : Payment → List Distribution)
    (g : Expense → List Distribution) :
    (calculateFinancialsWith roster rate state).summary.totalRevenue
        = (state.payments.map Payment.totalAmount).sum
    ∧ (calculateFinancialsWith roster rate state).summary.totalExpenses
        = (state.expenses.map Expense.amount).sum
    ∧ (calculateFinancialsWith roster rate
          { state with
              payments := state.payments.map
                (fun p => { p with distributions := f p }),
              expenses := state.expenses.map
                (fun e => { e with distributions := g e }) }).summary.totalRevenue
        = (calculateFinancialsWith roster rate state).summary.totalRevenue
    ∧ (calculateFinancialsWith roster rate
          { state with
              payments := state.payments.map
                (fun p => { p with distributions := f p }),
              expenses := state.expenses.map
                (fun e => { e with distributions := g e }) }).summary.totalExpenses
        = (calculateFinancialsWith roster rate state).summary.totalExpenses := by
  refine ⟨?_, ?_, ?_, ?_⟩
  · rw [summary_totalRevenue_def, foldl_add_eq, zero_add]
  · rw [summary_totalExpenses_def, foldl_add_eq, zero_add]
  · rw [summary_totalRevenue_def, summary_totalRevenue_def,
      foldl_add_eq, foldl_add_eq]
    simp only [List.map_map]
    rfl
  · rw [summary_totalExpenses_def, summary_totalExpenses_def,
      foldl_add_eq, foldl_add_eq]
    simp only [List.map_map]
    rfl

/-- C7: every dividend record created by addDividend carries
taxAmount = grossAmount times the dividend rate and
netReceived = grossAmount minus taxAmount, so the two parts always add back
to the gross; at a gross of 1000 and the fixed 5 percent rate that is a tax
of 50 and a net of 950. -/
theorem claim7_dividend_stamping (i pid date : String) (gross : ℚ) :
    (addDividend i pid gross date).taxAmount = gross * DIVIDEND_TAX_RATE
    ∧ (addDividend i pid gross date).netReceived
        = gross - (addDividend i pid gross date).taxAmount
    ∧ (addDividend i pid gross date).taxAmount
        + (addDividend i pid gross date).netReceived = gross
    ∧ (addDividend "d1" "p1" 1000 "2024-03-01").taxAmount = 50
    ∧ (addDividend "d1" "p1" 1000 "2024-03-01").netReceived = 950 := by
  refine ⟨rfl, rfl, ?_, ?_, ?_⟩
  · simp only [addDividend]
    ring
  · norm_num [addDividend, DIVIDEND_TAX_RATE]
  · norm_num [addDividend, DIVIDEND_TAX_RATE]

/-- C9: the engine is a pure function of its inputs: invoked on equal ledger
snapshots with the same roster and rate it returns equal results (input
mutation cannot occur, the embedding being purely functional like the source,
which only reads its arguments). -/
theorem claim9_pure_deterministic (roster : List Partner) (rate : ℚ)
    (s t : AppState) (h : s = t) :
    calculateFinancialsWith roster rate s = calculateFinancialsWith roster rate t := by
  rw [h]

theorem claim9_pure_deterministic_witness :
    drawDownState = drawDownState
    ∧ calculateFinancialsWith PARTNERS TAX_RATE drawDownState
        = calculateFinancialsWith PARTNERS TAX_RATE drawDownState :=
  ⟨rfl, claim9_pure_deterministic PARTNERS TAX_RATE drawDownState drawDownState rfl⟩

lemma foldl_update_roster_not_mem (roster : List Partner) (share : ℚ)
    (m : PartnerId → ℚ) (pid : PartnerId) (h : pid ∉ roster.map Partner.id) :
    roster.foldl (fun acc q => Function.update acc q.id (acc q.id + share)) m pid
      = m pid := by
  induction roster generalizing m with
  | nil => rfl
  | cons q rest ih =>
    simp only [List.map_cons, List.mem_cons, not_or] at h
    simp only [List.foldl_cons, ih _ (by simp [h.2]), Function.update_noteq h.1]

lemma foldl_update_roster_mem (roster : List Partner) (share : ℚ)
    (m : PartnerId → ℚ) (p : Partner) (hnd : (roster.map Partner.id).Nodup)
    (hp : p ∈ roster) :
    roster.foldl (fun acc q => Function.update acc q.id (acc q.id + share)) m p.id
      = m p.id + share := by
  induction roster generalizing m with
  | nil => cases hp
  | cons q rest ih =>
    simp only [List.map_cons, List.nodup_cons] at hnd
    rcases List.mem_cons.mp hp with hq | hrest
    · subst hq
      simp only [List.foldl_cons]
      rw [foldl_update_roster_not_mem rest share _ p.id hnd.1,
        Function.update_same]
    · have hne : p.id ≠ q.id := by
        intro hh
        exact hnd.1 (hh ▸ List.mem_map_of_mem Partner.id hrest)
      simp only [List.foldl_cons]
      rw [ih _ hnd.2 hrest, Function.update_noteq hne]

lemma partnerExpenseMap_addExpense (roster : List Partner) (state : AppState)
    (i desc : String) (amount : ℚ) (date category : String)
    (ds : List Distribution) :
    partnerExpenseMap roster (addExpense state i desc amount date category ds)
      = expenseMapStep roster (partnerExpenseMap roster state)
          { id := i, date := date, description := desc, amount := amount,
            category := category, distributions := ds } := by
  simp only [addExpense]
  exact partnerExpenseMap_append _ _ _

/-- C2 counterexample: the code has no empty-roster check at all. On an empty
roster the source computation returns a plain result (empty partner list,
summary computed from the ledger totals), while the spec-worded contract
demands a configuration error there. -/
theorem claim2_empty_roster_counterexample :
    computeFinancialsSpec [] TAX_RATE oneExpenseState
        = Except.error ConfigError.emptyRoster
    ∧ calculateFinancialsWith [] TAX_RATE oneExpenseState
        = { summary := { totalRevenue := 0, totalExpenses := 90,
                         taxableProfit := 0, corporateTax := 0,
                         netProfit := -90 },
            partnerStats := [] } := by
  refine ⟨rfl, ?_⟩
  norm_num [calculateFinancialsWith, oneExpenseState, emptyState,
    FinancialsResult.mk.injEq, FinancialSummary.mk.injEq]

/-- C2 as amended: the engine performs no empty-roster check and raises no
configuration error; its roster is the fixed non-empty three-partner constant,
and the computation generalized over the roster, invoked on an empty roster,
returns a normal result with an empty partner list and the same summary as
any other roster (the equal-split quotient is never stored anywhere). -/
theorem claim2_no_empty_roster_check (state : AppState) :
    PARTNERS.length = 3
    ∧ (calculateFinancialsWith [] TAX_RATE state).partnerStats = []
    ∧ (calculateFinancialsWith [] TAX_RATE state).summary
        = (calculateFinancials state).summary :=
  ⟨rfl, rfl, rfl⟩

/-- C4: an expense with an empty distributions list is split equally: it adds
exactly amount divided by the roster size to every roster partner's
expenseShare (the roster ids being distinct, as the fixed roster's are); in
particular an expense of 90 over the three fixed partners adds 30 to each. -/
theorem claim4_equal_split_fallback (roster : List Partner) (rate : ℚ)
    (state : AppState) (i desc date category : String) (amount : ℚ)
    (hnd : (roster.map Partner.id).Nodup) (p : Partner) (hp : p ∈ roster) :
    (partnerStatFor roster rate
        (addExpense state i desc amount date category []) p).expenseShare
      = (partnerStatFor roster rate state p).expenseShare
          + amount / (roster.length : ℚ)
    ∧ (calculateFinancialsWith roster rate
          (addExpense state i desc amount date category [])).partnerStats
      = roster.map (partnerStatFor roster rate
          (addExpense state i desc amount date category []))
    ∧ ((calculateFinancials
          (addExpense emptyState "e1" "наем" 90 "2024-01-01" "Наем"
            [])).partnerStats.map PartnerFinancials.expenseShare)
        = [30, 30, 30] := by
  refine ⟨?_, rfl, ?_⟩
  · rw [partnerStatFor_expenseShare, partnerStatFor_expenseShare,
      partnerExpenseMap_addExpense]
    simp only [expenseMapStep, List.isEmpty_nil, if_true]
    exact foldl_update_roster_mem roster _ _ p hnd hp
  · simp [calculateFinancials, calculateFinancialsWith, partnerStatFor,
      partnerExpenseMap, expenseMapStep, addExpense, emptyState, PARTNERS,
      p1, p2, p3, TAX_RATE, Payment.revenueFor, Function.update]
    all_goals norm_num

theorem claim4_equal_split_fallback_witness :
    ((PARTNERS.map Partner.id).Nodup ∧ p2 ∈ PARTNERS)
    ∧ ((partnerStatFor PARTNERS TAX_RATE
          (addExpense emptyState "e1" "наем" 90 "2024-01-01" "Наем" [])
          p2).expenseShare
        = (partnerStatFor PARTNERS TAX_RATE emptyState p2).expenseShare
            + 90 / (PARTNERS.length : ℚ)
      ∧ (calculateFinancialsWith PARTNERS TAX_RATE
            (addExpense emptyState "e1" "наем" 90 "2024-01-01" "Наем"
              [])).partnerStats
        = PARTNERS.map (partnerStatFor PARTNERS TAX_RATE
            (addExpense emptyState "e1" "наем" 90 "2024-01-01" "Наем" []))
      ∧ ((calculateFinancials
            (addExpense emptyState "e1" "наем" 90 "2024-01-01" "Наем"
              [])).partnerStats.map PartnerFinancials.expenseShare)
          = [30, 30, 30]) :=
  ⟨⟨by decide, by decide⟩,
    claim4_equal_split_fallback PARTNERS TAX_RATE emptyState "e1" "наем"
      "2024-01-01" "Наем" 90 (by decide) p2 (by decide)⟩

lemma partnerStatFor_partnerId (roster : List Partner) (rate : ℚ)
    (state : AppState) (p : Partner) :
    (partnerStatFor roster rate state p).partnerId = p.id := rfl

lemma partnerStatFor_dividendsTakenGross (roster : List Partner) (rate : ℚ)
    (state : AppState) (p : Partner) :
    (partnerStatFor roster rate state p).dividendsTakenGross
      = ((state.dividends.filter (fun d => d.partnerId == p.id)).map
          DividendPayout.grossAmount).sum := by
  have h : (partnerStatFor roster rate state p).dividendsTakenGross
      = (state.dividends.filter (fun d => d.partnerId == p.id)).foldl
          (fun sum d => sum + d.grossAmount) 0 := rfl
  rw [h, foldl_add_eq, zero_add]

/-- C5: appending an expense with a non-empty distributions list moves only
the partners named in the list: each roster partner's expenseShare grows by
the sum of the amounts listed against their id, a partner named nowhere in
the list keeps their entire statement unchanged, and the equal-split fallback
is not applied. -/
theorem claim5_explicit_distribution_overrides (roster : List Partner)
    (rate : ℚ) (state : AppState) (i desc date category : String)
    (amount : ℚ) (ds : List Distribution) (hds : ds ≠ []) (p : Partner) :
    (partnerStatFor roster rate
        (addExpense state i desc amount date category ds) p).expenseShare
      = (partnerStatFor roster rate state p).expenseShare
        + ((ds.filter (fun d => d.partnerId == p.id)).map
            Distribution.amount).sum
    ∧ (p.id ∉ ds.map Distribution.partnerId →
        partnerStatFor roster rate
            (addExpense state i desc amount date category ds) p
          = partnerStatFor roster rate state p)
    ∧ (calculateFinancialsWith roster rate
          (addExpense state i desc amount date category ds)).partnerStats
      = roster.map (partnerStatFor roster rate
          (addExpense state i desc amount date category ds)) := by
  have hisEmpty : ds.isEmpty = false := by
    cases ds with
    | nil => exact absurd rfl hds
    | cons d t => rfl
  have hmap : partnerExpenseMap roster
      (addExpense state i desc amount date category ds) p.id
      = partnerExpenseMap roster state p.id
        + ((ds.filter (fun d => d.partnerId == p.id)).map
            Distribution.amount).sum := by
    rw [partnerExpenseMap_addExpense]
    simp only [expenseMapStep, hisEmpty, Bool.false_eq_true, if_false]
    exact foldl_update_dists ds _ p.id
  refine ⟨?_, ?_, rfl⟩
  · rw [partnerStatFor_expenseShare, partnerStatFor_expenseShare, hmap]
  · intro hnot
    apply partnerStatFor_congr
    · rfl
    · rfl
    · rw [hmap]
      have hfil : ds.filter (fun d => d.partnerId == p.id) = [] := by
        rw [List.filter_eq_nil_iff]
        intro d hd hbeq
        exact hnot (eq_of_beq hbeq ▸ List.mem_map_of_mem Distribution.partnerId hd)
      rw [hfil]
      simp

theorem claim5_explicit_distribution_overrides_witness :
    ([({ partnerId := "p1", amount := 100 } : Distribution)] ≠ [])
    ∧ ((partnerStatFor PARTNERS TAX_RATE
          (addExpense emptyState "e2" "софтуер" 100 "2024-01-05" "Софтуер"
            [{ partnerId := "p1", amount := 100 }]) p2).expenseShare
        = (partnerStatFor PARTNERS TAX_RATE emptyState p2).expenseShare
          + (([({ partnerId := "p1", amount := 100 } : Distribution)].filter
              (fun d => d.partnerId == p2.id)).map Distribution.amount).sum
      ∧ (p2.id ∉ [({ partnerId := "p1", amount := 100 } : Distribution)].map
            Distribution.partnerId →
          partnerStatFor PARTNERS TAX_RATE
              (addExpense emptyState "e2" "софтуер" 100 "2024-01-05" "Софтуер"
                [{ partnerId := "p1", amount := 100 }]) p2
            = partnerStatFor PARTNERS TAX_RATE emptyState p2)
      ∧ (calculateFinancialsWith PARTNERS TAX_RATE
            (addExpense emptyState "e2" "софтуер" 100 "2024-01-05" "Софтуер"
              [{ partnerId := "p1", amount := 100 }])).partnerStats
        = PARTNERS.map (partnerStatFor PARTNERS TAX_RATE
            (addExpense emptyState "e2" "софтуер" 100 "2024-01-05" "Софтуер"
              [{ partnerId := "p1", amount := 100 }]))) :=
  ⟨by decide,
    claim5_explicit_distribution_overrides PARTNERS TAX_RATE emptyState "e2"
      "софтуер" "2024-01-05" "Софтуер" 100
      [{ partnerId := "p1", amount := 100 }] (by decide) p2⟩

/-- C6: every partner statement's balance is exactly netProfitShare minus the
gross dividends recorded against that partner id, with no clamp and no error:
in the draw-down ledger partner p1 has netProfitShare 1000, gross dividends
1200, and balance minus 200. -/
theorem claim6_balance_drawdown (roster : List Partner) (rate : ℚ)
    (state : AppState) (ps : PartnerFinancials)
    (hps : ps ∈ (calculateFinancialsWith roster rate state).partnerStats) :
    ps.balance = ps.netProfitShare - ps.dividendsTakenGross
    ∧ ps.dividendsTakenGross
        = ((state.dividends.filter
            (fun d => d.partnerId == ps.partnerId)).map
            DividendPayout.grossAmount).sum
    ∧ (calculateFinancials drawDownState).partnerStats.map
        PartnerFinancials.netProfitShare = [1000, 0, 0]
    ∧ (calculateFinancials drawDownState).partnerStats.map
        PartnerFinancials.dividendsTakenGross = [1200, 0, 0]
    ∧ (calculateFinancials drawDownState).partnerStats.map
        PartnerFinancials.balance = [-200, 0, 0] := by
  rw [partnerStats_def] at hps
  rcases List.mem_map.mp hps with ⟨p, _hp, rfl⟩
  refine ⟨rfl, ?_, ?_, ?_, ?_⟩
  · rw [partnerStatFor_partnerId]
    exact partnerStatFor_dividendsTakenGross roster rate state p
  all_goals
    simp [calculateFinancials, calculateFinancialsWith, partnerStatFor,
      partnerExpenseMap, expenseMapStep, drawDownState, emptyState, PARTNERS,
      p1, p2, p3, TAX_RATE, DIVIDEND_TAX_RATE, Payment.revenueFor,
      addDividend, Function.update]
  all_goals norm_num

theorem claim6_balance_drawdown_witness :
    (partnerStatFor PARTNERS TAX_RATE drawDownState p1
        ∈ (calculateFinancialsWith PARTNERS TAX_RATE drawDownState).partnerStats)
    ∧ ((partnerStatFor PARTNERS TAX_RATE drawDownState p1).balance
        = (partnerStatFor PARTNERS TAX_RATE drawDownState p1).netProfitShare
          - (partnerStatFor PARTNERS TAX_RATE drawDownState p1).dividendsTakenGross
      ∧ (partnerStatFor PARTNERS TAX_RATE drawDownState p1).dividendsTakenGross
        = ((drawDownState.dividends.filter
            (fun d => d.partnerId
              == (partnerStatFor PARTNERS TAX_RATE drawDownState p1).partnerId)).map
            DividendPayout.grossAmount).sum
      ∧ (calculateFinancials drawDownState).partnerStats.map
          PartnerFinancials.netProfitShare = [1000, 0, 0]
      ∧ (calculateFinancials drawDownState).partnerStats.map
          PartnerFinancials.dividendsTakenGross = [1200, 0, 0]
      ∧ (calculateFinancials drawDownState).partnerStats.map
          PartnerFinancials.balance = [-200, 0, 0]) := by
  have hmem : partnerStatFor PARTNERS TAX_RATE drawDownState p1
      ∈ (calculateFinancialsWith PARTNERS TAX_RATE drawDownState).partnerStats := by
    rw [partnerStats_def]
    exact List.mem_map_of_mem _ (by decide)
  exact ⟨hmem, claim6_balance_drawdown PARTNERS TAX_RATE drawDownState _ hmem⟩

lemma find?_filter_of_imp {α : Type} (l : List α) (q r : α → Bool)
    (h : ∀ x, q x = true → r x = true) :
    (l.filter r).find? q = l.find? q := by
  induction l with
  | nil => rfl
  | cons x xs ih =>
    simp only [List.filter_cons]
    by_cases hr : r x = true
    · rw [if_pos hr]
      by_cases hq : q x = true
      · rw [List.find?_cons_of_pos _ hq, List.find?_cons_of_pos _ hq]
      · rw [List.find?_cons_of_neg _ hq, List.find?_cons_of_neg _ hq, ih]
    · have hq : ¬ (q x = true) := fun hqx => hr (h x hqx)
      rw [if_neg hr, ih, List.find?_cons_of_neg _ hq]

lemma filter_filter_of_imp {α : Type} (l : List α) (q r : α → Bool)
    (h : ∀ x, q x = true → r x = true) :
    (l.filter r).filter q = l.filter q := by
  induction l with
  | nil => rfl
  | cons x xs ih =>
    simp only [List.filter_cons]
    by_cases hr : r x = true
    · rw [if_pos hr, List.filter_cons]
      by_cases hq : q x = true
      · rw [if_pos hq, if_pos hq, ih]
      · rw [if_neg hq, if_neg hq, ih]
    · have hq : ¬ (q x = true) := fun hqx => hr (h x hqx)
      rw [if_neg hr, if_neg hq, ih]

/-- C8: distribution entries naming a partner id outside the roster never
reach any partner statement, in any list, mixed or not: a payment's revenue
lookup and an expense's accumulator step agree with the alien-stripped record
(rosterEntries), an all-alien non-empty expense list adds nothing and takes no
equal-split fallback, the appended mixed records give every roster partner the
same statement as their stripped counterparts, and the company totals still
grow by the full parent amounts; the computation is total, so no exception is
possible. -/
theorem claim8_alien_distributions_dropped (roster : List Partner) (rate : ℚ)
    (state : AppState) (pay : Payment) (e : Expense) (m : PartnerId → ℚ)
    (p : Partner) (hp : p ∈ roster) :
    pay.revenueFor p.id
      = Payment.revenueFor
          { pay with distributions := rosterEntries roster pay.distributions }
          p.id
    ∧ partnerStatFor roster rate
        { state with payments := state.payments ++ [pay] } p
      = partnerStatFor roster rate
          { state with payments := state.payments ++
              [{ pay with
                  distributions := rosterEntries roster pay.distributions }] } p
    ∧ (rosterEntries roster e.distributions ≠ [] →
        expenseMapStep roster m e p.id
          = expenseMapStep roster m
              { e with distributions := rosterEntries roster e.distributions }
              p.id)
    ∧ (e.distributions ≠ [] → rosterEntries roster e.distributions = [] →
        expenseMapStep roster m e p.id = m p.id)
    ∧ (rosterEntries roster e.distributions ≠ [] →
        partnerStatFor roster rate
            { state with payments := state.payments ++ [pay],
                         expenses := state.expenses ++ [e] } p
          = partnerStatFor roster rate
              { state with
                  payments := state.payments ++
                    [{ pay with
                        distributions :=
                          rosterEntries roster pay.distributions }],
                  expenses := state.expenses ++
                    [{ e with
                        distributions :=
                          rosterEntries roster e.distributions }] } p)
    ∧ (calculateFinancialsWith roster rate
          { state with payments := state.payments ++ [pay],
                       expenses := state.expenses ++ [e] }).summary.totalRevenue
      = (calculateFinancialsWith roster rate state).summary.totalRevenue
          + pay.totalAmount
    ∧ (calculateFinancialsWith roster rate
          { state with payments := state.payments ++ [pay],
                       expenses := state.expenses ++ [e] }).summary.totalExpenses
      = (calculateFinancialsWith roster rate state).summary.totalExpenses
          + e.amount
    ∧ (calculateFinancialsWith roster rate
          { state with payments := state.payments ++ [pay],
                       expenses := state.expenses ++ [e] }).partnerStats
      = roster.map (partnerStatFor roster rate
          { state with payments := state.payments ++ [pay],
                       expenses := state.expenses ++ [e] }) := by
  have hpid : p.id ∈ roster.map Partner.id := List.mem_map_of_mem Partner.id hp
  have himp : ∀ d : Distribution, (d.partnerId == p.id) = true →
      (decide (d.partnerId ∈ roster.map Partner.id)) = true := by
    intro d hd
    rw [eq_of_beq hd]
    exact decide_eq_true hpid
  have hrev1 : pay.revenueFor p.id
      = Payment.revenueFor
          { pay with distributions := rosterEntries roster pay.distributions }
          p.id := by
    simp only [Payment.revenueFor, rosterEntries]
    rw [find?_filter_of_imp _ _ _ himp]
  have hstep : rosterEntries roster e.distributions ≠ [] →
      ∀ m2 : PartnerId → ℚ, expenseMapStep roster m2 e p.id
        = expenseMapStep roster m2
            { e with distributions := rosterEntries roster e.distributions }
            p.id := by
    intro hfil m2
    have hne : e.distributions ≠ [] := by
      intro h0
      apply hfil
      simp [rosterEntries, h0]
    have hisE : e.distributions.isEmpty = false := by
      cases h : e.distributions with
      | nil => exact absurd h hne
      | cons d t => rfl
    have hisE2 : (rosterEntries roster e.distributions).isEmpty = false := by
      cases h : rosterEntries roster e.distributions with
      | nil => exact absurd h hfil
      | cons d t => rfl
    simp only [expenseMapStep, hisE, hisE2, Bool.false_eq_true, if_false]
    rw [foldl_update_dists, foldl_update_dists]
    simp only [rosterEntries]
    rw [filter_filter_of_imp _ _ _ himp]
  refine ⟨hrev1, ?_, fun hfil => hstep hfil m, ?_, ?_, ?_, ?_, rfl⟩
  · apply partnerStatFor_congr
    · show (state.payments ++ [pay]).foldl
          (fun sum q => sum + q.revenueFor p.id) 0 = _
      rw [List.foldl_append, List.foldl_append]
      simp only [List.foldl_cons, List.foldl_nil]
      rw [hrev1]
    · rfl
    · rfl
  · intro hne2 hall
    have hisE : e.distributions.isEmpty = false := by
      cases h : e.distributions with
      | nil => exact absurd h hne2
      | cons d t => rfl
    simp only [expenseMapStep, hisE, Bool.false_eq_true, if_false]
    rw [foldl_update_dists]
    have hq0 : e.distributions.filter (fun d => d.partnerId == p.id) = [] := by
      simp only [rosterEntries] at hall
      rw [List.filter_eq_nil_iff]
      intro d hd hq
      exact (List.filter_eq_nil_iff.mp hall d hd) (himp d hq)
    rw [hq0]
    simp
  · intro hfil
    apply partnerStatFor_congr
    · show (state.payments ++ [pay]).foldl
          (fun sum q => sum + q.revenueFor p.id) 0 = _
      rw [List.foldl_append, List.foldl_append]
      simp only [List.foldl_cons, List.foldl_nil]
      rw [hrev1]
    · rfl
    · simp only [partnerExpenseMap, List.foldl_append, List.foldl_cons,
        List.foldl_nil]
      exact hstep hfil _
  · rw [summary_totalRevenue_def, summary_totalRevenue_def]
    show (state.payments ++ [pay]).foldl (fun sum q => sum + q.totalAmount) 0 = _
    rw [List.foldl_append]
    simp
  · rw [summary_totalExpenses_def, summary_totalExpenses_def]
    show (state.expenses ++ [e]).foldl (fun sum q => sum + q.amount) 0 = _
    rw [List.foldl_append]
    simp

theorem claim8_alien_distributions_dropped_witness :
    p1 ∈ PARTNERS
    ∧ (Payment.revenueFor
          { id := "payx", projectId := "proj", date := "2024-04-01",
            description := "mixed", totalAmount := 70,
            distributions := [{ partnerId := "p1", amount := 30 },
                              { partnerId := "p9", amount := 40 }] } p1.id
        = Payment.revenueFor
            { id := "payx", projectId := "proj", date := "2024-04-01",
              description := "mixed", totalAmount := 70,
              distributions := rosterEntries PARTNERS
                [{ partnerId := "p1", amount := 30 },
                 { partnerId := "p9", amount := 40 }] } p1.id
      ∧ partnerStatFor PARTNERS TAX_RATE
          { emptyState with payments := emptyState.payments ++
              [{ id := "payx", projectId := "proj", date := "2024-04-01",
                 description := "mixed", totalAmount := 70,
                 distributions := [{ partnerId := "p1", amount := 30 },
                                   { partnerId := "p9", amount := 40 }] }] } p1
        = partnerStatFor PARTNERS TAX_RATE
            { emptyState with payments := emptyState.payments ++
                [{ id := "payx", projectId := "proj", date := "2024-04-01",
                   description := "mixed", totalAmount := 70,
                   distributions := rosterEntries PARTNERS
                     [{ partnerId := "p1", amount := 30 },
                      { partnerId := "p9", amount := 40 }] }] } p1
      ∧ (rosterEntries PARTNERS
            [({ partnerId := "p1", amount := 25 } : Distribution),
             { partnerId := "p9", amount := 15 }] ≠ [] →
          expenseMapStep PARTNERS (fun _ => 0)
              { id := "expx", date := "2024-04-02", description := "mixed",
                amount := 40, category := "Други",
                distributions := [{ partnerId := "p1", amount := 25 },
                                  { partnerId := "p9", amount := 15 }] } p1.id
            = expenseMapStep PARTNERS (fun _ => 0)
                { id := "expx", date := "2024-04-02", description := "mixed",
                  amount := 40, category := "Други",
                  distributions := rosterEntries PARTNERS
                    [{ partnerId := "p1", amount := 25 },
                     { partnerId := "p9", amount := 15 }] } p1.id)
      ∧ (([({ partnerId := "p1", amount := 25 } : Distribution),
           { partnerId := "p9", amount := 15 }] : List Distribution) ≠ [] →
          rosterEntries PARTNERS
            [({ partnerId := "p1", amount := 25 } : Distribution),
             { partnerId := "p9", amount := 15 }] = [] →
          expenseMapStep PARTNERS (fun _ => 0)
              { id := "expx", date := "2024-04-02", description := "mixed",
                amount := 40, category := "Други",
                distributions := [{ partnerId := "p1", amount := 25 },
                                  { partnerId := "p9", amount := 15 }] } p1.id
            = (fun _ => (0 : ℚ)) p1.id)
      ∧ (rosterEntries PARTNERS
            [({ partnerId := "p1", amount := 25 } : Distribution),
             { partnerId := "p9", amount := 15 }] ≠ [] →
          partnerStatFor PARTNERS TAX_RATE
              { emptyState with
                  payments := emptyState.payments ++
                    [{ id := "payx", projectId := "proj", date := "2024-04-01",
                       description := "mixed", totalAmount := 70,
                       distributions := [{ partnerId := "p1", amount := 30 },
                                         { partnerId := "p9", amount := 40 }] }],
                  expenses := emptyState.expenses ++
                    [{ id := "expx", date := "2024-04-02",
                       description := "mixed", amount := 40,
                       category := "Други",
                       distributions :=
                         [{ partnerId := "p1", amount := 25 },
                          { partnerId := "p9", amount := 15 }] }] } p1
            = partnerStatFor PARTNERS TAX_RATE
                { emptyState with
                    payments := emptyState.payments ++
                      [{ id := "payx", projectId := "proj",
                         date := "2024-04-01", description := "mixed",
                         totalAmount := 70,
                         distributions := rosterEntries PARTNERS
                           [{ partnerId := "p1", amount := 30 },
                            { partnerId := "p9", amount := 40 }] }],
                    expenses := emptyState.expenses ++
                      [{ id := "expx", date := "2024-04-02",
                         description := "mixed", amount := 40,
                         category := "Други",
                         distributions := rosterEntries PARTNERS
                           [{ partnerId := "p1", amount := 25 },
                            { partnerId := "p9", amount := 15 }] }] } p1)
      ∧ (calculateFinancialsWith PARTNERS TAX_RATE
            { emptyState with
                payments := emptyState.payments ++
                  [{ id := "payx", projectId := "proj", date := "2024-04-01",
                     description := "mixed", totalAmount := 70,
                     distributions := [{ partnerId := "p1", amount := 30 },
                                       { partnerId := "p9", amount := 40 }] }],
                expenses := emptyState.expenses ++
                  [{ id := "expx", date := "2024-04-02", description := "mixed",
                     amount := 40, category := "Други",
                     distributions :=
                       [{ partnerId := "p1", amount := 25 },
                        { partnerId := "p9",
                          amount := 15 }] }] }).summary.totalRevenue
        = (calculateFinancialsWith PARTNERS TAX_RATE
            emptyState).summary.totalRevenue + 70
      ∧ (calculateFinancialsWith PARTNERS TAX_RATE
            { emptyState with
                payments := emptyState.payments ++
                  [{ id := "payx", projectId := "proj", date := "2024-04-01",
                     description := "mixed", totalAmount := 70,
                     distributions := [{ partnerId := "p1", amount := 30 },
                                       { partnerId := "p9", amount := 40 }] }],
                expenses := emptyState.expenses ++
                  [{ id := "expx", date := "2024-04-02", description := "mixed",
                     amount := 40, category := "Други",
                     distributions :=
                       [{ partnerId := "p1", amount := 25 },
                        { partnerId := "p9",
                          amount := 15 }] }] }).summary.totalExpenses
        = (calculateFinancialsWith PARTNERS TAX_RATE
            emptyState).summary.totalExpenses + 40
      ∧ (calculateFinancialsWith PARTNERS TAX_RATE
            { emptyState with
                payments := emptyState.payments ++
                  [{ id := "payx", projectId := "proj", date := "2024-04-01",
                     description := "mixed", totalAmount := 70,
                     distributions := [{ partnerId := "p1", amount := 30 },
                                       { partnerId := "p9", amount := 40 }] }],
                expenses := emptyState.expenses ++
                  [{ id := "expx", date := "2024-04-02", description := "mixed",
                     amount := 40, category := "Други",
                     distributions :=
                       [{ partnerId := "p1", amount := 25 },
                        { partnerId := "p9", amount := 15 }] }] }).partnerStats
        = PARTNERS.map (partnerStatFor PARTNERS TAX_RATE
            { emptyState with
                payments := emptyState.payments ++
                  [{ id := "payx", projectId := "proj", date := "2024-04-01",
                     description := "mixed", totalAmount := 70,
                     distributions := [{ partnerId := "p1", amount := 30 },
                                       { partnerId := "p9", amount := 40 }] }],
                expenses := emptyState.expenses ++
                  [{ id := "expx", date := "2024-04-02", description := "mixed",
                     amount := 40, category := "Други",
                     distributions :=
                       [{ partnerId := "p1", amount := 25 },
                        { partnerId := "p9", amount := 15 }] }] })) :=
  ⟨by decide,
    claim8_alien_distributions_dropped PARTNERS TAX_RATE emptyState
      { id := "payx", projectId := "proj", date := "2024-04-01",
        description := "mixed", totalAmount := 70,
        distributions := [{ partnerId := "p1", amount := 30 },
                          { partnerId := "p9", amount := 40 }] }
      { id := "expx", date := "2024-04-02", description := "mixed",
        amount := 40, category := "Други",
        distributions := [{ partnerId := "p1", amount := 25 },
                          { partnerId := "p9", amount := 15 }] }
      (fun _ => 0) p1 (by decide)⟩


/-- C10: duplicate distribution entries for one partner id are handled
asymmetrically: a payment counts only the first matching entry (the find in
the source), while an expense adds every matching entry, so duplicates are
summed into the expense share; the partner statement reads revenue through
exactly this per-payment lookup and the expense share through exactly this
accumulator map. -/
theorem claim10_duplicate_distribution_asymmetry (i projId date desc : String)
    (total : ℚ) (pid : PartnerId) (a b : ℚ) (ds : List Distribution)
    (i2 date2 desc2 cat2 : String) (amt2 : ℚ) (roster : List Partner)
    (rate : ℚ) (state : AppState) (m : PartnerId → ℚ) (p : Partner) :
    Payment.revenueFor
        { id := i, projectId := projId, date := date, description := desc,
          totalAmount := total,
          distributions := { partnerId := pid, amount := a }
            :: { partnerId := pid, amount := b } :: ds } pid = a
    ∧ expenseMapStep roster m
        { id := i2, date := date2, description := desc2, amount := amt2,
          category := cat2,
          distributions := { partnerId := pid, amount := a }
            :: { partnerId := pid, amount := b } :: ds } pid
      = m pid + a + b
        + ((ds.filter (fun d => d.partnerId == pid)).map
            Distribution.amount).sum
    ∧ (partnerStatFor roster rate state p).revenue
        = state.payments.foldl (fun sum q => sum + q.revenueFor p.id) 0
    ∧ (partnerStatFor roster rate state p).expenseShare
        = partnerExpenseMap roster state p.id := by
  refine ⟨?_, ?_, rfl, rfl⟩
  · simp [Payment.revenueFor, List.find?]
  · simp only [expenseMapStep, List.isEmpty_cons, Bool.false_eq_true, if_false]
    rw [foldl_update_dists]
    simp [List.filter_cons]
    ring
